import Mathlib

/-!
Verification development for the llm-scraper backend
(`src/backend/app/services/extraction_analyzer.py`,
`src/backend/app/services/scraping_service.py`,
`src/backend/app/api/websocket.py`,
`src/backend/app/models/scraping.py`).

The Python code is shallowly embedded: Python `Any`/JSON values become the
inductive `Json`; fallible Python operations (attribute errors, type errors)
return `Except String`; floats become exact rationals `ℚ`; the wall clock and
the websocket transport payload timestamps are abstracted away (no property
below depends on them).
-/

namespace LlmScraper

/-- JSON-like values standing for Python `Any` (dict / list / str / number / bool / None).
Dicts are association lists with unique keys, in insertion order. -/
inductive Json where
  | null : Json
  | bool (b : Bool) : Json
  | num (q : ℚ) : Json
  | str (s : String) : Json
  | arr (elems : List Json) : Json
  | obj (fields : List (String × Json)) : Json

instance : Inhabited Json := ⟨Json.null⟩

/-- Python truthiness `bool(v)`: None, False, 0, "", [], and an empty dict are falsy. -/
def Json.truthy : Json → Bool
  | .null => false
  | .bool b => b
  | .num q => q != 0
  | .str s => s != ""
  | .arr l => !l.isEmpty
  | .obj l => !l.isEmpty

/-- Lookup in a Python dict modelled as an association list (dict keys are unique). -/
def dictLookup (k : String) : List (String × Json) → Option Json
  | [] => none
  | p :: rest => if p.1 = k then some p.2 else dictLookup k rest

/-- Python `d.get(k, default)`. -/
def dictGetD (d : List (String × Json)) (k : String) (dflt : Json) : Json :=
  (dictLookup k d).getD dflt

/-- Whether a Json value is exactly the Python string `s` (Python `v == "s"`). -/
def Json.isStr : Json → String → Bool
  | .str t, s => t = s
  | _, _ => false

/-- Python `len(v)`: defined for str, list and dict; a TypeError otherwise. -/
def pyLen : Json → Except String Nat
  | .str s => .ok s.length
  | .arr l => .ok l.length
  | .obj l => .ok l.length
  | _ => .error "TypeError: object has no len()"

/-- Python `v.items()`: defined only on a dict; an AttributeError otherwise. -/
def pyItems : Json → Except String (List (String × Json))
  | .obj l => .ok l
  | _ => .error "AttributeError: object has no attribute items"

/-- Python `v.keys()`: defined only on a dict; an AttributeError otherwise. -/
def pyKeys : Json → Except String (List String)
  | .obj l => .ok (l.map Prod.fst)
  | _ => .error "AttributeError: object has no attribute keys"

/-- Left-to-right scan replacing every non-overlapping occurrence of a
non-empty pattern; the fuel bounds recursion depth and is adequate whenever it
is at least the input length. -/
def replaceScan (pat repl : List Char) : Nat → List Char → List Char
  | 0, s => s
  | _, [] => []
  | fuel + 1, c :: rest =>
    if !pat.isEmpty && pat.isPrefixOf (c :: rest) then
      repl ++ replaceScan pat repl fuel (List.drop pat.length (c :: rest))
    else c :: replaceScan pat repl fuel rest

/-- Python `v.replace(a, b)` for the non-empty patterns used by the source:
defined only on a str; an AttributeError otherwise. -/
def pyStrReplace (j : Json) (a b : String) : Except String String :=
  match j with
  | .str s => .ok ⟨replaceScan a.data b.data s.data.length s.data⟩
  | _ => .error "AttributeError: object has no attribute replace"

/-- Python `v > n` for a Json value against a number; bools compare as 0/1;
other types raise a TypeError. -/
def pyGtNum (j : Json) (n : ℚ) : Except String Bool :=
  match j with
  | .num q => .ok (decide (n < q))
  | .bool b => .ok (decide (n < (if b then (1 : ℚ) else 0)))
  | _ => .error "TypeError: unsupported comparison"

/-- Python `int()` truncation toward zero on an exact rational. -/
def pyInt (q : ℚ) : Int := if 0 ≤ q then ⌊q⌋ else ⌈q⌉

/-- Occurrence test for a pattern anywhere in a character list. -/
def containsList (pat : List Char) : List Char → Bool
  | [] => pat.isEmpty
  | c :: rest => pat.isPrefixOf (c :: rest) || containsList pat rest

/-- Python substring test `pat in s` (an empty pattern is always contained). -/
def containsSub (s pat : String) : Bool :=
  containsList pat.data s.data

/-- Python `str.lower()` (ASCII case folding, as in the source's usage). -/
def lowerStr (s : String) : String :=
  ⟨s.data.map Char.toLower⟩

/-- Python `str(v)` as used in f-string interpolation (numeric and container
formatting approximated; no property below inspects these strings). -/
def Json.render : Json → String
  | .null => "None"
  | .bool b => if b then "True" else "False"
  | .num q => if q.den = 1 then toString q.num else toString q
  | .str s => s
  | .arr _ => "[...]"
  | .obj _ => "\x7b...\x7d"

/-- Everything after the first `//`, if the list contains one. -/
def afterDoubleSlash : List Char → Option (List Char)
  | [] => none
  | c :: rest =>
    if ['/', '/'].isPrefixOf (c :: rest) then some (rest.drop 1)
    else afterDoubleSlash rest

/-- Prefix up to (excluding) the first occurrence of any given separator character. -/
def takeUntilSeps (seps : List Char) : List Char → List Char
  | [] => []
  | c :: rest => if c ∈ seps then [] else c :: takeUntilSeps seps rest

/-- Models Python `urlparse(url).netloc`: the part after the first `//` up to
the next `/`, `?` or `#`, and `""` when the URL has no `//`. -/
def urlNetloc (url : String) : String :=
  match afterDoubleSlash url.data with
  | some rest => ⟨takeUntilSeps ['/', '?', '#'] rest⟩
  | none => ""

/-! ## ExtractionAnalyzer (`extraction_analyzer.py`) -/

/-- `ExtractionAnalyzer.__init__`: known front-end framework markers. -/
def js_frameworks : List String :=
  ["react", "angular", "vue", "svelte", "ember", "backbone", "knockout", "polymer", "lit"]

/-- `ExtractionAnalyzer.__init__`: single-page-application fingerprints. -/
def spa_indicators : List String :=
  ["data-reactroot", "ng-app", "ng-version", "v-if", "v-for",
   "__NEXT_DATA__", "__NUXT__", "gatsby", "webpack"]

/-- `ExtractionAnalyzer.__init__`: known heavy-JavaScript domains. -/
def heavy_js_domains : List String :=
  ["linkedin.com", "facebook.com", "twitter.com", "instagram.com",
   "youtube.com", "netflix.com", "spotify.com", "slack.com",
   "discord.com", "figma.com", "notion.so", "airtable.com"]

/-- One complexity factor: a score and its human-readable reasons. -/
structure Factor where
  score : ℚ
  reasons : List String

/-- `ExtractionAnalyzer._analyze_domain_complexity`. -/
def analyze_domain_complexity (domain : String) : Factor :=
  let heavyHit := heavy_js_domains.find? (fun d => containsSub domain d)
  let s1 : ℚ := match heavyHit with | some _ => 0.8 | none => 0
  let r1 : List String :=
    match heavyHit with
    | some d => [s!"Known heavy JavaScript domain: {d}"]
    | none => []
  let social_indicators : List String := ["facebook", "twitter", "instagram", "linkedin", "tiktok"]
  let socialHit := social_indicators.any (fun ind => containsSub domain ind)
  let s2 : ℚ := if socialHit then 0.7 else 0
  let r2 : List String := if socialHit then ["Social media platform - requires complex interaction"] else []
  let ecommerce_indicators : List String := ["amazon", "ebay", "shopify", "etsy", "alibaba"]
  let ecommerceHit := ecommerce_indicators.any (fun ind => containsSub domain ind)
  let s3 : ℚ := if ecommerceHit then 0.5 else 0
  let r3 : List String := if ecommerceHit then ["E-commerce platform - dynamic pricing and inventory"] else []
  let saas_indicators : List String := ["app", "dashboard", "admin", "portal", "console"]
  let saasHit := saas_indicators.any (fun ind => containsSub domain ind)
  let s4 : ℚ := if saasHit then 0.6 else 0
  let r4 : List String := if saasHit then ["SaaS application - likely requires authentication"] else []
  { score := min (s1 + s2 + s3 + s4) 1, reasons := r1 ++ r2 ++ r3 ++ r4 }

/-- Skip just past the next `>` character, if any (the `[^>]*>` tail of the
script-tag regex). -/
def afterGt : List Char → Option (List Char)
  | [] => none
  | c :: rest => if c = '>' then some rest else afterGt rest

/-- Left-to-right scan counting non-overlapping matches of the regex
`<script[^>]*>` on lowercased input; the fuel bounds recursion depth and is
adequate whenever it is at least the input length. -/
def scriptTagScan : Nat → List Char → Nat
  | 0, _ => 0
  | _, [] => 0
  | fuel + 1, c :: rest =>
    if List.take 7 (c :: rest) = "<script".data then
      match afterGt (List.drop 7 (c :: rest)) with
      | some rest2 => 1 + scriptTagScan fuel rest2
      | none => scriptTagScan fuel rest
    else scriptTagScan fuel rest

/-- `re.findall(r'<script[^>]*>', html_content, re.IGNORECASE)` length. -/
def countScriptTags (html : String) : Nat :=
  scriptTagScan html.length (lowerStr html).data

/-- Dynamic-binding attribute markers in `_analyze_html_complexity`. -/
def dynamic_indicators : List String :=
  ["data-bind", "ng-", "v-", "@click", "onclick", "data-react", "data-vue", "x-data", "wire:"]

/-- Loading-indicator markers in `_analyze_html_complexity`. -/
def loading_indicators : List String := ["loading", "spinner", "skeleton", "placeholder"]

/-- AJAX call-pattern markers in `_analyze_html_complexity`. -/
def ajax_patterns : List String :=
  ["fetch(", "axios", "XMLHttpRequest", "$.ajax", "$.get", "$.post"]

/-- `ExtractionAnalyzer._analyze_html_complexity`. -/
def analyze_html_complexity (html_content : String) : Factor :=
  let lower := lowerStr html_content
  let fwHits := js_frameworks.filter (fun fw => containsSub lower (lowerStr fw))
  let s1 : ℚ := 0.3 * (fwHits.length : ℚ)
  let r1 := fwHits.map (fun fw => s!"JavaScript framework detected: {fw}")
  let spaHits := spa_indicators.filter (fun ind => containsSub html_content ind)
  let s2 : ℚ := 0.4 * (spaHits.length : ℚ)
  let r2 := spaHits.map (fun ind => s!"Single Page Application indicator: {ind}")
  let script_count := countScriptTags html_content
  let s3 : ℚ := if script_count > 20 then 0.5 else if script_count > 10 then 0.3 else 0
  let r3 : List String :=
    if script_count > 20 then [s!"High number of script tags: {script_count}"]
    else if script_count > 10 then [s!"Moderate number of script tags: {script_count}"]
    else []
  let dynamic_count := (dynamic_indicators.filter (fun ind => containsSub lower ind)).length
  let s4 : ℚ := if dynamic_count > 10 then 0.4 else if dynamic_count > 5 then 0.2 else 0
  let r4 : List String :=
    if dynamic_count > 10 then [s!"High dynamic content indicators: {dynamic_count}"]
    else if dynamic_count > 5 then [s!"Moderate dynamic content indicators: {dynamic_count}"]
    else []
  let loadingHit := loading_indicators.any (fun ind => containsSub lower ind)
  let s5 : ℚ := if loadingHit then 0.3 else 0
  let r5 : List String := if loadingHit then ["Loading indicators suggest dynamic content"] else []
  let ajax_count := (ajax_patterns.filter (fun pat => containsSub html_content pat)).length
  let s6 : ℚ := if ajax_count > 0 then 0.4 else 0
  let r6 : List String := if ajax_count > 0 then [s!"AJAX/fetch patterns detected: {ajax_count}"] else []
  { score := min (s1 + s2 + s3 + s4 + s5 + s6) 1, reasons := r1 ++ r2 ++ r3 ++ r4 ++ r5 ++ r6 }

/-- The field table of a schema: `items` for an array schema, `properties`
otherwise (the shape shared by `_analyze_schema_complexity`,
`_generate_zod_validation` and `_generate_extraction_hints`). -/
def schemaFields (schema : List (String × Json)) : Json :=
  if (dictGetD schema "type" Json.null).isStr "array" then dictGetD schema "items" (Json.obj [])
  else dictGetD schema "properties" (Json.obj [])

/-- Whether a field config is a dict whose `type` entry is `array` or `object`
(the complex-field test of `_analyze_schema_complexity`). -/
def isComplexField (p : String × Json) : Bool :=
  match p.2 with
  | .obj fc =>
    let ft := dictGetD fc "type" (Json.str "string")
    ft.isStr "array" || ft.isStr "object"
  | _ => false

/-- Whether a field config is a dict with a truthy `validationPattern`
(the pattern-field test of `_analyze_schema_complexity`). -/
def isPatternField (p : String × Json) : Bool :=
  match p.2 with
  | .obj fc => (dictGetD fc "validationPattern" Json.null).truthy
  | _ => false

/-- `ExtractionAnalyzer._analyze_schema_complexity`. -/
def analyze_schema_complexity (schema : List (String × Json)) : Except String Factor :=
  let fields := schemaFields schema
  match pyLen fields with
  | .error e => .error e
  | .ok field_count =>
    match pyItems fields with
    | .error e => .error e
    | .ok items =>
      let s1 : ℚ := if field_count > 15 then 0.3 else if field_count > 8 then 0.1 else 0
      let r1 : List String :=
        if field_count > 15 then [s!"High number of fields to extract: {field_count}"]
        else if field_count > 8 then [s!"Moderate number of fields to extract: {field_count}"]
        else []
      let complex_fields := (items.filter isComplexField).length
      let s2 : ℚ := 0.2 * (complex_fields : ℚ)
      let r2 : List String :=
        if complex_fields > 0 then [s!"Complex field types detected: {complex_fields} array/object fields"]
        else []
      let pattern_fields := (items.filter isPatternField).length
      let s3 : ℚ := if pattern_fields > 3 then 0.1 else 0
      let r3 : List String := if pattern_fields > 3 then [s!"Multiple validation patterns: {pattern_fields}"] else []
      .ok { score := min (s1 + s2 + s3) 1, reasons := r1 ++ r2 ++ r3 }

/-- `ExtractionAnalyzer._analyze_page_metrics`. -/
def analyze_page_metrics (page_metrics : List (String × Json)) : Except String Factor :=
  let load_time := dictGetD page_metrics "load_time" (Json.num 0)
  match pyGtNum load_time 10 with
  | .error e => .error e
  | .ok lt10 =>
  match pyGtNum load_time 5 with
  | .error e => .error e
  | .ok lt5 =>
  let request_count := dictGetD page_metrics "network_requests" (Json.num 0)
  match pyGtNum request_count 100 with
  | .error e => .error e
  | .ok rc100 =>
  match pyGtNum request_count 50 with
  | .error e => .error e
  | .ok rc50 =>
  let js_time := dictGetD page_metrics "js_execution_time" (Json.num 0)
  match pyGtNum js_time 5 with
  | .error e => .error e
  | .ok js5 =>
  let ltStr := load_time.render
  let s1 : ℚ := if lt10 then 0.5 else if lt5 then 0.2 else 0
  let r1 : List String :=
    if lt10 then [s!"Slow page load time: {ltStr}s"]
    else if lt5 then [s!"Moderate page load time: {ltStr}s"]
    else []
  let rcStr := request_count.render
  let s2 : ℚ := if rc100 then 0.4 else if rc50 then 0.2 else 0
  let r2 : List String :=
    if rc100 then [s!"High number of network requests: {rcStr}"]
    else if rc50 then [s!"Moderate number of network requests: {rcStr}"]
    else []
  let jsStr := js_time.render
  let s3 : ℚ := if js5 then 0.3 else 0
  let r3 : List String := if js5 then [s!"High JavaScript execution time: {jsStr}s"] else []
  .ok { score := min (s1 + s2 + s3) 1, reasons := r1 ++ r2 ++ r3 }

/-- Authentication markers in `_requires_user_interaction`. -/
def auth_indicators : List String :=
  ["login", "sign in", "authenticate", "password", "data-requires-auth", "protected", "unauthorized"]

/-- Pagination / infinite-scroll markers in `_requires_user_interaction`. -/
def pagination_indicators : List String :=
  ["load more", "show more", "next page", "pagination", "infinite-scroll", "lazy-load"]

/-- Modal / popup markers in `_requires_user_interaction`. -/
def modal_indicators : List String := ["modal", "popup", "dialog", "overlay"]

/-- Interaction-heavy domains in `_requires_user_interaction`. -/
def interaction_domains : List String :=
  ["linkedin.com", "facebook.com", "instagram.com", "twitter.com", "discord.com", "slack.com"]

/-- `ExtractionAnalyzer._requires_user_interaction` (its `schema_definition`
parameter is unused in the source as well). -/
def requires_user_interaction (html_content : String) (schema_definition : List (String × Json))
    (domain : String) : Bool :=
  let lower := lowerStr html_content
  auth_indicators.any (fun ind => containsSub lower ind) ||
  pagination_indicators.any (fun ind => containsSub lower ind) ||
  modal_indicators.any (fun ind => containsSub lower ind) ||
  interaction_domains.any (fun d => containsSub domain d)

/-- Loop body of `_generate_zod_validation` for one dict-valued field config:
the Zod type string, or the AttributeError raised when a truthy
`validationPattern` or `description` is not a str. -/
def zodFieldType (fc : List (String × Json)) : Except String String := do
  let field_type := dictGetD fc "type" (Json.str "string")
  let is_required := (dictGetD fc "required" (Json.bool false)).truthy
  let base ←
    if field_type.isStr "string" then do
      let z0 := "z.string()"
      let minLength := dictGetD fc "minLength" Json.null
      let z1 := if minLength.truthy then z0 ++ ".min(" ++ minLength.render ++ ")" else z0
      let maxLength := dictGetD fc "maxLength" Json.null
      let z2 := if maxLength.truthy then z1 ++ ".max(" ++ maxLength.render ++ ")" else z1
      let vp := dictGetD fc "validationPattern" Json.null
      if vp.truthy then do
        let pat ← pyStrReplace vp "\\" "\\\\"
        pure (z2 ++ ".regex(/" ++ pat ++ "/)")
      else pure z2
    else if field_type.isStr "number" then pure "z.number()"
    else if field_type.isStr "boolean" then pure "z.boolean()"
    else if field_type.isStr "array" then pure "z.array(z.string())"
    else pure "z.string()"
  let withOpt := if is_required then base else base ++ ".optional()"
  let desc := dictGetD fc "description" Json.null
  if desc.truthy then do
    let ds ← pyStrReplace desc "\"" "\\\""
    pure (withOpt ++ ".describe(\"" ++ ds ++ "\")")
  else pure withOpt

/-- `ExtractionAnalyzer._generate_zod_validation`; the `generated_at` wall-clock
timestamp is abstracted to a fixed string. Raises (AttributeError) when the
schema's field table is not a dict, or when a field carries a truthy non-str
`validationPattern` or `description`. -/
def generate_zod_validation (schema : List (String × Json)) : Except String Json := do
  let fields := schemaFields schema
  let items ← pyItems fields
  let zod_schema ← items.foldlM (fun (acc : List (String × Json)) p => do
    match p.2 with
    | .obj fc => do
      let zt ← zodFieldType fc
      pure (acc ++ [(p.1, Json.str zt)])
    | _ => pure acc) []
  return Json.obj [("schema_type", dictGetD schema "type" (Json.str "object")),
                   ("fields", Json.obj zod_schema),
                   ("generated_at", Json.str "<generated-at>")]

/-- `ExtractionAnalyzer._generate_extraction_hints`. -/
def generate_extraction_hints (schema : List (String × Json)) (html_content : String) :
    Except String (List String) := do
  let lower := lowerStr html_content
  let h1 : List String :=
    if containsSub html_content "<article" then ["Page contains <article> tags - likely news/blog content"] else []
  let h2 : List String :=
    if containsSub lower "product" then ["Product-related content detected - use e-commerce selectors"] else []
  let h3 : List String :=
    if containsSub lower "price" then ["Price information detected - look for currency symbols"] else []
  let h4 : List String :=
    if containsSub lower "rating" || containsSub html_content "★" then ["Rating/review content detected"] else []
  let h5 : List String :=
    if (dictGetD schema "type" Json.null).isStr "array" then ["Array schema - look for repeated elements/lists"] else []
  let fields := schemaFields schema
  let keys ← pyKeys fields
  let fieldHints := (keys.map (fun field_name =>
    let fn := lowerStr field_name
    if containsSub fn "title" then ["Title field - prioritize h1, h2, .title, .headline selectors"]
    else if containsSub fn "price" then ["Price field - look for currency symbols and .price, .cost selectors"]
    else if containsSub fn "image" then ["Image field - extract from img src attributes"]
    else [])).flatten
  return h1 ++ h2 ++ h3 ++ h4 ++ h5 ++ fieldHints

/-- The analysis record returned by `analyze_extraction_requirements`
(`method` is "javascript" for the light strategy, "playwright" for the heavy one). -/
structure Analysis where
  method : String
  complexity_score : ℚ
  reasons : List String
  estimated_load_time : Int
  requires_interaction : Bool
  zod_validation : Json
  extraction_hints : List String

/-- The optional runtime-metrics factor: computed only when `page_metrics` is
truthy (present and non-empty), mirroring `if page_metrics:` in
`analyze_extraction_requirements`. -/
def metricsFactors (page_metrics : Option (List (String × Json))) : Except String (List Factor) :=
  match page_metrics with
  | some m =>
    if m.isEmpty then .ok []
    else
      match analyze_page_metrics m with
      | .ok f4 => .ok [f4]
      | .error e => .error e
  | none => .ok []

/-- The deterministic load-time formula of `analyze_extraction_requirements`:
`min(90, int(10 + score * 80))` past the 0.6 threshold, `min(15, int(3 + score * 12))` below it. -/
def estimatedLoadTimeOf (score : ℚ) : Int :=
  if 0.6 < score then min 90 (pyInt (10 + score * 80)) else min 15 (pyInt (3 + score * 12))

/-- Tail of the `try`-body of `analyze_extraction_requirements` once all four
fallible pieces have succeeded: averages the factor scores, picks the method
and load time from the score, then applies the interaction override. -/
def assembleAnalysis (url html_content : String) (schema : List (String × Json))
    (zod : Json) (hints : List String) (f3 : Factor) (extra : List Factor) : Analysis :=
  let domain := lowerStr (urlNetloc url)
  let f1 := analyze_domain_complexity domain
  let f2 := analyze_html_complexity html_content
  let complexity_factors := [f1, f2, f3] ++ extra
  let score := (complexity_factors.map Factor.score).sum / (complexity_factors.length : ℚ)
  let reasons := (complexity_factors.map Factor.reasons).flatten
  let method := if 0.6 < score then "playwright" else "javascript"
  let est := estimatedLoadTimeOf score
  let ri := requires_user_interaction html_content schema domain
  let method2 := if ri then "playwright" else method
  let reasons2 :=
    if ri then reasons ++ ["Requires user interaction (clicks, scrolling, form filling)"]
    else reasons
  { method := method2, complexity_score := score, reasons := reasons2,
    estimated_load_time := est, requires_interaction := ri,
    zod_validation := zod, extraction_hints := hints }

/-- The `try`-body of `ExtractionAnalyzer.analyze_extraction_requirements`:
the four fallible pieces in source order, then the pure assembly. -/
def analyzeCore (url html_content : String) (schema : List (String × Json))
    (page_metrics : Option (List (String × Json))) : Except String Analysis :=
  match generate_zod_validation schema with
  | .error e => .error e
  | .ok zod =>
    match generate_extraction_hints schema html_content with
    | .error e => .error e
    | .ok hints =>
      match analyze_schema_complexity schema with
      | .error e => .error e
      | .ok f3 =>
        match metricsFactors page_metrics with
        | .error e => .error e
        | .ok extra =>
          Except.ok (assembleAnalysis url html_content schema zod hints f3 extra)

/-- `ExtractionAnalyzer.analyze_extraction_requirements`: the `try`-body, and on
any exception the `except`-handler that builds the Playwright-biased fallback —
whose own call to `_generate_zod_validation` may itself raise again. -/
def analyze_extraction_requirements (url html_content : String) (schema : List (String × Json))
    (page_metrics : Option (List (String × Json))) : Except String Analysis :=
  match analyzeCore url html_content schema page_metrics with
  | .ok a => .ok a
  | .error e =>
    match generate_zod_validation schema with
    | .ok zod =>
      .ok { method := "playwright", complexity_score := 0.8,
            reasons := [s!"Analysis error, defaulting to Playwright: {e}"],
            estimated_load_time := 30, requires_interaction := false,
            zod_validation := zod, extraction_hints := [] }
    | .error e2 => .error e2

/-! ## NotificationHub (`websocket.py`, `ConnectionManager`) -/

/-- The two broadcast payload shapes emitted by the pipeline (the dict `type`
field becomes the constructor; wall-clock timestamps are elided). -/
inductive Msg where
  | job_progress (job_id : Nat) (stage : String) (message : String)
  | job_status_update (job_id : Nat) (status : String) (error_message : Option String)
deriving DecidableEq

/-- `ConnectionManager` state: the live connections (dict keys, in insertion
order; the websocket objects are the transport and are abstracted away) and the
per-job subscriber lists. -/
structure Hub where
  active_connections : List String
  job_subscribers : List (Nat × List String)

/-- `ConnectionManager.connect`: dict insert of the client id (keys unique). -/
def Hub.connect (h : Hub) (client_id : String) : Hub :=
  { h with active_connections :=
      if client_id ∈ h.active_connections then h.active_connections
      else h.active_connections ++ [client_id] }

/-- `ConnectionManager.subscribe_to_job` on the subscriber table: create the
entry if the job key is absent, then append the client if not already a member
(dict keys are unique, so only the first matching entry exists). -/
def subsInsert (job_id : Nat) (client_id : String) :
    List (Nat × List String) → List (Nat × List String)
  | [] => [(job_id, [client_id])]
  | p :: rest =>
    if p.1 = job_id then
      (if client_id ∈ p.2 then p :: rest else (p.1, p.2 ++ [client_id]) :: rest)
    else p :: subsInsert job_id client_id rest

/-- `ConnectionManager.subscribe_to_job`. -/
def Hub.subscribe_to_job (h : Hub) (job_id : Nat) (client_id : String) : Hub :=
  { h with job_subscribers := subsInsert job_id client_id h.job_subscribers }

/-- `ConnectionManager.unsubscribe_from_job` on the subscriber table: remove
the client from the job's list when present (`list.remove` drops the first
occurrence), deleting the entry if it became empty. -/
def subsRemove (job_id : Nat) (client_id : String) :
    List (Nat × List String) → List (Nat × List String)
  | [] => []
  | p :: rest =>
    if p.1 = job_id then
      (if client_id ∈ p.2 then
        (if (p.2.erase client_id).isEmpty then rest else (p.1, p.2.erase client_id) :: rest)
       else p :: rest)
    else p :: subsRemove job_id client_id rest

/-- `ConnectionManager.unsubscribe_from_job`. -/
def Hub.unsubscribe_from_job (h : Hub) (job_id : Nat) (client_id : String) : Hub :=
  { h with job_subscribers := subsRemove job_id client_id h.job_subscribers }

/-- `ConnectionManager.disconnect`: delete the client's dict key, then for every
job remove the client from the subscriber list (first occurrence) and delete any
list this emptied; a list the client was not in is left untouched. -/
def Hub.disconnect (h : Hub) (client_id : String) : Hub :=
  { active_connections := h.active_connections.erase client_id,
    job_subscribers := h.job_subscribers.filterMap (fun p =>
      if client_id ∈ p.2 then
        (if (p.2.erase client_id).isEmpty then none else some (p.1, p.2.erase client_id))
      else some p) }

/-- Hub states reachable from the initial empty manager by the public
operations. -/
inductive HubReachable : Hub → Prop where
  | init : HubReachable ⟨[], []⟩
  | connect (h : Hub) (c : String) : HubReachable h → HubReachable (h.connect c)
  | subscribe (h : Hub) (j : Nat) (c : String) : HubReachable h → HubReachable (h.subscribe_to_job j c)
  | unsubscribe (h : Hub) (j : Nat) (c : String) : HubReachable h → HubReachable (h.unsubscribe_from_job j c)
  | disconnect (h : Hub) (c : String) : HubReachable h → HubReachable (h.disconnect c)

/-- The hub's structural invariant: the connection registry has no duplicate
keys, and every subscriber list is non-empty and duplicate-free (Python dict
keys and the membership-guarded appends guarantee this). -/
def HubInv (h : Hub) : Prop :=
  h.active_connections.Nodup ∧ ∀ p ∈ h.job_subscribers, p.2 ≠ [] ∧ p.2.Nodup

/-- `ConnectionManager.broadcast_to_all`: send the message to every live
connection, in registry order, appending to the delivery log; transport send
failures (which prune dead connections) are outside the model. -/
def broadcast_to_all (h : Hub) (deliveries : List (String × Msg)) (message : Msg) :
    List (String × Msg) :=
  deliveries ++ h.active_connections.map (fun client_id => (client_id, message))

/-! ## JobOrchestrator (`scraping_service.py`, `models/scraping.py`) -/

/-- A `scraping_jobs` row (timestamps reduced to the `completed_at` set/unset
flag; `created_at` is unused by any property below). -/
structure JobRec where
  url : String
  schema_definition : List (String × Json)
  status : String
  error_message : Option String
  completed_at : Bool
  user_id : String

/-- A `generated_scripts` row. -/
structure ScriptRec where
  job_id : Nat
  script_content : String
  script_type : String
deriving DecidableEq

/-- An `extracted_data` row. -/
structure DataRec where
  job_id : Nat
  data : Json
  data_count : Nat

/-- The orchestrator-visible world: the three persisted tables, the in-memory
`active_jobs` registry (dict keys; the `asyncio.Task` handles are abstracted
away), the notification hub, and the log of broadcast deliveries. -/
structure SysState where
  jobs : List (Nat × JobRec)
  scripts : List ScriptRec
  results : List DataRec
  active_jobs : List Nat
  hub : Hub
  deliveries : List (String × Msg)

/-- Primary-key lookup in the jobs table (keys unique). -/
def jobsLookup : List (Nat × JobRec) → Nat → Option JobRec
  | [], _ => none
  | p :: rest, job_id => if p.1 = job_id then some p.2 else jobsLookup rest job_id

/-- `SELECT ... WHERE ScrapingJob.id == job_id`. -/
def lookupJob (s : SysState) (job_id : Nat) : Option JobRec :=
  jobsLookup s.jobs job_id

/-- `ScrapingService._log_job_progress`: broadcast a `job_progress` event to all
connections (broadcast failures are swallowed by the source; its db argument is
unused there too). -/
def log_job_progress (job_id : Nat) (stage message : String) (s : SysState) : SysState :=
  { s with deliveries := broadcast_to_all s.hub s.deliveries (Msg.job_progress job_id stage message) }

/-- The row update built by `ScrapingService._update_job_status`: always the
status; `completed_at` for a terminal status; the error message only when it is
truthy (a non-empty string). -/
def applyStatusUpdate (status : String) (error_message : Option String) (j : JobRec) : JobRec :=
  let j1 := { j with status := status }
  let j2 :=
    if status = "completed" || status = "failed" || status = "cancelled" then
      { j1 with completed_at := true }
    else j1
  match error_message with
  | some em => if em = "" then j2 else { j2 with error_message := some em }
  | none => j2

/-- `ScrapingService._update_job_status`: update-and-commit the row, then
broadcast a `job_status_update` event to all connections. -/
def update_job_status (job_id : Nat) (status : String) (error_message : Option String)
    (s : SysState) : SysState :=
  { s with
    jobs := s.jobs.map (fun p =>
      if p.1 = job_id then (p.1, applyStatusUpdate status error_message p.2) else p),
    deliveries := broadcast_to_all s.hub s.deliveries
      (Msg.job_status_update job_id status error_message) }

/-- The two failure modes of `ScrapingService.start_scraping_job`, raised in the
source as generic exceptions with distinguishing messages (`Job ... not found` /
`Job ... is not in pending status`) and named per the spec's error taxonomy. -/
inductive StartError where
  | notFound
  | stateConflict
deriving DecidableEq

/-- `ScrapingService.start_scraping_job`: look the job up, reject a missing job
or a non-pending status without touching anything, otherwise set the status to
`running`, register the registry entry (dict insert) and return at once — the
pipeline it schedules with `asyncio.create_task` runs separately (as
`execute_scraping_job` below). -/
def start_scraping_job (job_id : Nat) (s : SysState) : SysState × Except StartError String :=
  match lookupJob s job_id with
  | none => (s, Except.error StartError.notFound)
  | some job =>
    if job.status = "pending" then
      let s1 := update_job_status job_id "running" none s
      let s2 := { s1 with active_jobs :=
        if job_id ∈ s1.active_jobs then s1.active_jobs else s1.active_jobs ++ [job_id] }
      (s2, Except.ok "started")
    else (s, Except.error StartError.stateConflict)

/-- The result dict of `AIService.analyze_webpage_and_generate_script`:
`status`, the script text, and the optional `error` entry. -/
structure AIResult where
  status : String
  script : String
  error : Option String

/-- The result dict of `PlaywrightService.execute_extraction_script`. -/
structure ExtractionResult where
  status : String
  data : Json
  data_count : Nat
  error : Option String

/-- `ScrapingService._execute_scraping_job` as the list of states after each
successive operation (each broadcast and each committed table write), for the
given collaborator outcomes.  The `except` handler logs a `failed` progress
event and persists the `failed` status with the exception text; the `finally`
block deletes the registry key (dict `del`, keys unique). -/
def execute_scraping_job_trace (job_id : Nat) (script_result : AIResult)
    (extraction_result : ExtractionResult) (s0 : SysState) : List SysState :=
  let s1 := log_job_progress job_id "started" "Initializing scraping job" s0
  let s2 := log_job_progress job_id "generating_script" "AI is generating extraction script" s1
  if script_result.status ≠ "success" then
    let msg := "Script generation failed: " ++ script_result.error.getD "Unknown error"
    let f1 := log_job_progress job_id "failed" ("Job failed: " ++ msg) s2
    let f2 := update_job_status job_id "failed" (some msg) f1
    let f3 := { f2 with active_jobs := f2.active_jobs.filter (fun i => i ≠ job_id) }
    [s1, s2, f1, f2, f3]
  else
    let n := script_result.script.length
    let s3 := log_job_progress job_id "script_ready" s!"Generated {n} character script" s2
    let s4 := { s3 with scripts := s3.scripts ++
      [{ job_id := job_id, script_content := script_result.script, script_type := "playwright" }] }
    let s5 := log_job_progress job_id "extracting" "Executing script and extracting data" s4
    if extraction_result.status ≠ "success" then
      let msg := "Extraction failed: " ++ extraction_result.error.getD "Unknown error"
      let f1 := log_job_progress job_id "failed" ("Job failed: " ++ msg) s5
      let f2 := update_job_status job_id "failed" (some msg) f1
      let f3 := { f2 with active_jobs := f2.active_jobs.filter (fun i => i ≠ job_id) }
      [s1, s2, s3, s4, s5, f1, f2, f3]
    else
      let cnt := extraction_result.data_count
      let s6 := log_job_progress job_id "data_extracted" s!"Successfully extracted {cnt} items" s5
      let s7 := { s6 with results := s6.results ++
        [{ job_id := job_id, data := extraction_result.data, data_count := cnt }] }
      let s8 := log_job_progress job_id "completed" s!"Job completed successfully with {cnt} items" s7
      let s9 := update_job_status job_id "completed" none s8
      let s10 := { s9 with active_jobs := s9.active_jobs.filter (fun i => i ≠ job_id) }
      [s1, s2, s3, s4, s5, s6, s7, s8, s9, s10]

/-- The final state of `ScrapingService._execute_scraping_job`. -/
def execute_scraping_job (job_id : Nat) (script_result : AIResult)
    (extraction_result : ExtractionResult) (s0 : SysState) : SysState :=
  (execute_scraping_job_trace job_id script_result extraction_result s0).getLastD s0

/-- Pydantic validation of `ScrapingJobCreate`: `url` must be a str and
`schema_definition` a mapping; there is no further constraint (in particular no
emptiness check on either field). -/
def parseScrapingJobCreate (payload : Json) : Except String (String × List (String × Json)) :=
  match payload with
  | .obj fields =>
    match dictLookup "url" fields, dictLookup "schema_definition" fields with
    | some (.str url), some (.obj schema) => .ok (url, schema)
    | _, _ => .error "ValidationError"
  | _ => .error "ValidationError"

/-- `ScrapingService.create_scraping_job` behind the `ScrapingJobCreate`
validation boundary: persist a new row with status `pending` (the fresh `new_id`
stands for the generated UUID primary key); nothing else is touched. -/
def create_scraping_job (payload : Json) (user_id : String) (new_id : Nat) (s : SysState) :
    Except String (SysState × Nat) :=
  match parseScrapingJobCreate payload with
  | .error e => .error e
  | .ok (url, schema) =>
    .ok ({ s with jobs := s.jobs ++ [(new_id,
      { url := url, schema_definition := schema, status := "pending",
        error_message := none, completed_at := false, user_id := user_id })] }, new_id)

/-! ## Concrete fixtures for witnesses and counterexamples -/

instance : Inhabited Analysis :=
  ⟨{ method := "", complexity_score := 0, reasons := [], estimated_load_time := 0,
     requires_interaction := false, zod_validation := Json.null, extraction_hints := [] }⟩

/-- A plain page with none of the analyzer's trigger patterns. -/
def wHtml : String := "<html><body>some words</body></html>"

/-- A simple one-string-field object schema. -/
def wSchema : List (String × Json) :=
  [("type", Json.str "object"),
   ("properties", Json.obj [("name", Json.obj [("type", Json.str "string")])])]

/-- The analysis computed on the plain fixture page. -/
def wAnalysis : Analysis :=
  (analyzeCore "http://example.org/items" wHtml wSchema none).toOption.getD default

/-- A hub reached by one connect and one subscribe. -/
def wHub : Hub := (Hub.connect ⟨[], []⟩ "alice").subscribe_to_job 1 "alice"

/-- A job already in `running` (as `StartJob` leaves it for the pipeline). -/
def wJob : JobRec :=
  { url := "http://example.org/items", schema_definition := [], status := "running",
    error_message := none, completed_at := false, user_id := "anonymous" }

/-- A world with one running job, two live connections, and one of them
subscribed to a different job. -/
def wState : SysState :=
  { jobs := [(1, wJob)], scripts := [], results := [], active_jobs := [1],
    hub := { active_connections := ["alice", "bob"], job_subscribers := [(2, ["bob"])] },
    deliveries := [] }

/-- The same world with the job still `pending` and no registry entry. -/
def wPendingState : SysState :=
  { wState with jobs := [(1, { wJob with status := "pending" })], active_jobs := [] }

/-- A successful script-generation outcome. -/
def wScriptOk : AIResult := { status := "success", script := "return result;", error := none }

/-- A failed script-generation outcome. -/
def wScriptFail : AIResult := { status := "error", script := "", error := some "LLM unavailable" }

/-- A successful extraction outcome. -/
def wExtrOk : ExtractionResult :=
  { status := "success", data := Json.arr [], data_count := 0, error := none }

/-- A failed extraction outcome. -/
def wExtrFail : ExtractionResult :=
  { status := "error", data := Json.null, data_count := 0, error := some "Timeout" }

/-- An empty world. -/
def emptyState : SysState :=
  { jobs := [], scripts := [], results := [], active_jobs := [], hub := ⟨[], []⟩, deliveries := [] }

/-! ## Helper lemmas: complexity factors -/

theorem clamp01 {X : ℚ} (h : 0 ≤ X) : 0 ≤ min X 1 ∧ min X 1 ≤ 1 :=
  ⟨le_min h zero_le_one, min_le_right X 1⟩

theorem analyze_domain_complexity_bounds (domain : String) :
    0 ≤ (analyze_domain_complexity domain).score ∧ (analyze_domain_complexity domain).score ≤ 1 := by
  simp only [analyze_domain_complexity]
  apply clamp01
  cases hf : heavy_js_domains.find? (fun d => containsSub domain d) <;>
    simp only [hf] <;> split_ifs <;> norm_num

theorem analyze_html_complexity_bounds (html_content : String) :
    0 ≤ (analyze_html_complexity html_content).score ∧
      (analyze_html_complexity html_content).score ≤ 1 := by
  simp only [analyze_html_complexity]
  apply clamp01
  split_ifs <;> positivity

theorem analyze_schema_complexity_bounds {schema : List (String × Json)} {f : Factor}
    (h : analyze_schema_complexity schema = Except.ok f) : 0 ≤ f.score ∧ f.score ≤ 1 := by
  simp only [analyze_schema_complexity] at h
  split at h
  · exact absurd h (by simp)
  · split at h
    · exact absurd h (by simp)
    · injection h with h
      subst h
      apply clamp01
      split_ifs <;> positivity

theorem analyze_page_metrics_bounds {m : List (String × Json)} {f : Factor}
    (h : analyze_page_metrics m = Except.ok f) : 0 ≤ f.score ∧ f.score ≤ 1 := by
  simp only [analyze_page_metrics] at h
  split at h
  · simp at h
  · split at h
    · simp at h
    · split at h
      · simp at h
      · split at h
        · simp at h
        · split at h
          · simp at h
          · injection h with h
            subst h
            apply clamp01
            split_ifs <;> norm_num

theorem metricsFactors_cases {metrics : Option (List (String × Json))} {extra : List Factor}
    (h : metricsFactors metrics = Except.ok extra) :
    (extra = [] ∧ (metrics = none ∨ metrics = some [])) ∨
    (∃ m f4, metrics = some m ∧ m ≠ [] ∧ analyze_page_metrics m = Except.ok f4 ∧ extra = [f4]) := by
  rcases metrics with _ | m
  · simp only [metricsFactors] at h
    injection h with h
    exact Or.inl ⟨h.symm, Or.inl rfl⟩
  · simp only [metricsFactors] at h
    by_cases hme : m.isEmpty = true
    · rw [if_pos hme] at h
      injection h with h
      have hnil : m = [] := by cases m with | nil => rfl | cons x xs => simp at hme
      exact Or.inl ⟨h.symm, Or.inr (by rw [hnil])⟩
    · rw [if_neg hme] at h
      cases hf4 : analyze_page_metrics m with
      | error e => exact Except.noConfusion (by simp only [hf4] at h; exact h)
      | ok f4 =>
        simp only [hf4] at h
        injection h with h
        have hne : m ≠ [] := by intro hnil; subst hnil; simp at hme
        exact Or.inr ⟨m, f4, rfl, hne, hf4, h.symm⟩

theorem analyzeCore_ok_elim {url html_content : String} {schema : List (String × Json)}
    {metrics : Option (List (String × Json))} {a : Analysis}
    (h : analyzeCore url html_content schema metrics = Except.ok a) :
    ∃ zod hints f3 extra,
      generate_zod_validation schema = Except.ok zod ∧
      generate_extraction_hints schema html_content = Except.ok hints ∧
      analyze_schema_complexity schema = Except.ok f3 ∧
      metricsFactors metrics = Except.ok extra ∧
      a = assembleAnalysis url html_content schema zod hints f3 extra := by
  unfold analyzeCore at h
  cases hz : generate_zod_validation schema with
  | error e => exact Except.noConfusion (by simp only [hz] at h; exact h)
  | ok zod =>
    simp only [hz] at h
    cases hh : generate_extraction_hints schema html_content with
    | error e => exact Except.noConfusion (by simp only [hh] at h; exact h)
    | ok hints =>
      simp only [hh] at h
      cases hs : analyze_schema_complexity schema with
      | error e => exact Except.noConfusion (by simp only [hs] at h; exact h)
      | ok f3 =>
        simp only [hs] at h
        cases hm : metricsFactors metrics with
        | error e => exact Except.noConfusion (by simp only [hm] at h; exact h)
        | ok extra =>
          simp only [hm] at h
          injection h with h
          exact ⟨zod, hints, f3, extra, rfl, rfl, rfl, rfl, h.symm⟩

theorem mean_bounds {l : List ℚ} (hne : l ≠ []) (hb : ∀ x ∈ l, 0 ≤ x ∧ x ≤ 1) :
    0 ≤ l.sum / (l.length : ℚ) ∧ l.sum / (l.length : ℚ) ≤ 1 := by
  have hlen : 0 < (l.length : ℚ) := by
    have := List.length_pos.mpr hne
    exact_mod_cast this
  constructor
  · exact div_nonneg (List.sum_nonneg fun x hx => (hb x hx).1) hlen.le
  · rw [div_le_one hlen]
    have h1 : l.sum ≤ l.length • (1 : ℚ) := List.sum_le_card_nsmul l 1 fun x hx => (hb x hx).2
    simpa using h1

theorem extra_factor_bounds {metrics : Option (List (String × Json))} {extra : List Factor}
    (hm : metricsFactors metrics = Except.ok extra) :
    ∀ g ∈ extra, 0 ≤ g.score ∧ g.score ≤ 1 := by
  rcases metricsFactors_cases hm with ⟨rfl, _⟩ | ⟨m, f4, _, _, hf4, rfl⟩
  · intro g hg; simp at hg
  · intro g hg
    simp at hg
    subst hg
    exact analyze_page_metrics_bounds hf4

theorem analyzeCore_score_bounds {url html_content : String} {schema : List (String × Json)}
    {metrics : Option (List (String × Json))} {a : Analysis}
    (h : analyzeCore url html_content schema metrics = Except.ok a) :
    0 ≤ a.complexity_score ∧ a.complexity_score ≤ 1 := by
  obtain ⟨zod, hints, f3, extra, hz, hh, hs, hm, rfl⟩ := analyzeCore_ok_elim h
  have hb1 := analyze_domain_complexity_bounds (lowerStr (urlNetloc url))
  have hb2 := analyze_html_complexity_bounds html_content
  have hb3 := analyze_schema_complexity_bounds hs
  have hbe := extra_factor_bounds hm
  have hmem : ∀ x ∈ ([analyze_domain_complexity (lowerStr (urlNetloc url)),
      analyze_html_complexity html_content, f3] ++ extra).map Factor.score, 0 ≤ x ∧ x ≤ 1 := by
    intro x hx
    rcases List.mem_map.mp hx with ⟨g, hg, rfl⟩
    simp only [List.mem_append, List.mem_cons, List.not_mem_nil, or_false] at hg
    rcases hg with (rfl | rfl | rfl) | hg
    · exact hb1
    · exact hb2
    · exact hb3
    · exact hbe g hg
  have hmean := mean_bounds (l := ([analyze_domain_complexity (lowerStr (urlNetloc url)),
      analyze_html_complexity html_content, f3] ++ extra).map Factor.score) (by simp) hmem
  simpa [assembleAnalysis, List.length_map] using hmean

theorem estimatedLoadTimeOf_bounds {s : ℚ} (h0 : 0 ≤ s) :
    (s ≤ 0.6 → 3 ≤ estimatedLoadTimeOf s ∧ estimatedLoadTimeOf s ≤ 15) ∧
    (0.6 < s → 10 ≤ estimatedLoadTimeOf s ∧ estimatedLoadTimeOf s ≤ 90) := by
  unfold estimatedLoadTimeOf pyInt
  constructor
  · intro hle
    rw [if_neg (not_lt.mpr hle), if_pos (by positivity : (0 : ℚ) ≤ 3 + s * 12)]
    refine ⟨le_min (by norm_num) ?_, min_le_left _ _⟩
    rw [Int.le_floor]
    push_cast
    linarith
  · intro hlt
    rw [if_pos hlt, if_pos (by positivity : (0 : ℚ) ≤ 10 + s * 80)]
    refine ⟨le_min (by norm_num) ?_, min_le_left _ _⟩
    rw [Int.le_floor]
    push_cast
    linarith

/-! ## Claim theorems: ComplexityAnalyzer -/

/-- C4: on the analyzer's non-error path, the returned strategy is heavy
(`playwright`) iff the complexity score exceeds 0.6 or an interaction indicator
(authentication, pagination, modal markup, or an interaction-heavy domain)
fires; when the indicator fires the decision is heavy with
`requires_interaction = true` regardless of the score. -/
theorem analyzer_strategy_decision (url html_content : String) (schema : List (String × Json))
    (metrics : Option (List (String × Json))) (a : Analysis)
    (h : analyzeCore url html_content schema metrics = Except.ok a) :
    analyze_extraction_requirements url html_content schema metrics = Except.ok a ∧
    (a.method = "playwright" ↔
      (0.6 < a.complexity_score ∨
        requires_user_interaction html_content schema (lowerStr (urlNetloc url)) = true)) ∧
    (requires_user_interaction html_content schema (lowerStr (urlNetloc url)) = true →
      a.method = "playwright" ∧ a.requires_interaction = true) := by
  refine ⟨by unfold analyze_extraction_requirements; rw [h], ?_⟩
  obtain ⟨zod, hints, f3, extra, _, _, _, _, rfl⟩ := analyzeCore_ok_elim h
  simp only [assembleAnalysis]
  by_cases hri : requires_user_interaction html_content schema (lowerStr (urlNetloc url)) = true
  · simp [hri]
  · by_cases hsc : (0.6 : ℚ) <
      ((([analyze_domain_complexity (lowerStr (urlNetloc url)),
          analyze_html_complexity html_content, f3] ++ extra).map Factor.score).sum /
        ((([analyze_domain_complexity (lowerStr (urlNetloc url)),
          analyze_html_complexity html_content, f3] ++ extra).length : ℚ)))
    · simp [hri, hsc]
    · simp [hri, hsc]

/-- C5: on the analyzer's non-error path the returned complexity score is the
arithmetic mean of the factor scores actually computed (the runtime-metrics
factor only when metrics are supplied and non-empty), each factor score lies in
[0,1], and the overall score lies in [0,1]. -/
theorem analyzer_score_clamped_mean (url html_content : String) (schema : List (String × Json))
    (metrics : Option (List (String × Json))) (a : Analysis)
    (h : analyzeCore url html_content schema metrics = Except.ok a) :
    (0 ≤ a.complexity_score ∧ a.complexity_score ≤ 1) ∧
    (0 ≤ (analyze_domain_complexity (lowerStr (urlNetloc url))).score ∧
      (analyze_domain_complexity (lowerStr (urlNetloc url))).score ≤ 1) ∧
    (0 ≤ (analyze_html_complexity html_content).score ∧
      (analyze_html_complexity html_content).score ≤ 1) ∧
    ∃ f3, analyze_schema_complexity schema = Except.ok f3 ∧ (0 ≤ f3.score ∧ f3.score ≤ 1) ∧
      ((metrics = none ∨ metrics = some []) →
        a.complexity_score = ((analyze_domain_complexity (lowerStr (urlNetloc url))).score +
          (analyze_html_complexity html_content).score + f3.score) / 3) ∧
      (∀ m, metrics = some m → m ≠ [] →
        ∃ f4, analyze_page_metrics m = Except.ok f4 ∧ (0 ≤ f4.score ∧ f4.score ≤ 1) ∧
          a.complexity_score = ((analyze_domain_complexity (lowerStr (urlNetloc url))).score +
            (analyze_html_complexity html_content).score + f3.score + f4.score) / 4) := by
  refine ⟨analyzeCore_score_bounds h, analyze_domain_complexity_bounds _,
    analyze_html_complexity_bounds _, ?_⟩
  obtain ⟨zod, hints, f3, extra, hz, hh, hs, hm, rfl⟩ := analyzeCore_ok_elim h
  refine ⟨f3, hs, analyze_schema_complexity_bounds hs, ?_, ?_⟩
  · intro hcase
    have hextra : extra = [] := by
      rcases hcase with rfl | rfl
      · simp only [metricsFactors] at hm
        injection hm with hm
        exact hm.symm
      · simp only [metricsFactors, List.isEmpty_cons] at hm
        simp at hm
        exact hm
    subst hextra
    simp [assembleAnalysis, List.sum_cons]
    ring
  · intro m hmm hne
    subst hmm
    rcases metricsFactors_cases hm with ⟨_, hcon | hcon⟩ | ⟨m2, f4, hm2, _, hf4, rfl⟩
    · exact absurd hcon (by simp)
    · exact absurd (by injection hcon) hne
    · have hm2' : m2 = m := by injection hm2 with hm2; exact hm2.symm
      subst hm2'
      refine ⟨f4, hf4, analyze_page_metrics_bounds hf4, ?_⟩
      simp [assembleAnalysis, List.sum_cons]
      ring

/-- C6 (amended): the estimated load time is the deterministic function
`estimatedLoadTimeOf` of the complexity score alone; it lies in 3–15 s whenever
the score is at most 0.6 — including decisions forced to the heavy strategy by
the interaction override, which keep the light-branch estimate — and in
10–90 s whenever the score exceeds 0.6. -/
theorem analyzer_load_time_piecewise (url html_content : String) (schema : List (String × Json))
    (metrics : Option (List (String × Json))) (a : Analysis)
    (h : analyzeCore url html_content schema metrics = Except.ok a) :
    a.estimated_load_time = estimatedLoadTimeOf a.complexity_score ∧
    (a.complexity_score ≤ 0.6 → 3 ≤ a.estimated_load_time ∧ a.estimated_load_time ≤ 15) ∧
    (0.6 < a.complexity_score → 10 ≤ a.estimated_load_time ∧ a.estimated_load_time ≤ 90) := by
  have h0 := (analyzeCore_score_bounds h).1
  have heq : a.estimated_load_time = estimatedLoadTimeOf a.complexity_score := by
    obtain ⟨zod, hints, f3, extra, _, _, _, _, rfl⟩ := analyzeCore_ok_elim h
    simp [assembleAnalysis]
  refine ⟨heq, ?_, ?_⟩
  · intro hle
    rw [heq]
    exact (estimatedLoadTimeOf_bounds h0).1 hle
  · intro hlt
    rw [heq]
    exact (estimatedLoadTimeOf_bounds h0).2 hlt

/-- C6 counterexample: a page whose only trigger is modal markup gets score 0,
so the interaction override forces the heavy strategy while the load-time
estimate was computed on the light branch — the decision is heavy with an
estimate of 3 s, outside the claimed 10–90 s heavy range. -/
theorem analyzer_load_time_counterexample :
    (analyze_extraction_requirements "http://example.org/page" "modal"
        [("type", Json.str "object"), ("properties", Json.obj [])] none).toOption.map
      (fun a => (a.method, a.requires_interaction, a.estimated_load_time)) =
      some ("playwright", true, 3) ∧
    ¬(10 ≤ (3 : Int) ∧ (3 : Int) ≤ 90) := by
  constructor
  · with_unfolding_all decide
  · decide

/-- C7: evaluating the analyzer at a schema whose `properties` value is not a
mapping makes the `try`-body raise, and the `except` fallback's own call to
`_generate_zod_validation` raises again, so the exception escapes to the caller
instead of the documented safe default being returned. -/
theorem analyzer_fallback_reraises :
    analyze_extraction_requirements "http://example.org" "" [("properties", Json.num 5)] none =
      Except.error "AttributeError: object has no attribute items" := by
  with_unfolding_all rfl

/-! ## Helper lemmas: orchestrator state -/

theorem jobsLookup_map_update (jobs : List (Nat × JobRec)) (job_id : Nat) (f : JobRec → JobRec) :
    jobsLookup (jobs.map (fun p => if p.1 = job_id then (p.1, f p.2) else p)) job_id =
      (jobsLookup jobs job_id).map f := by
  induction jobs with
  | nil => rfl
  | cons p rest ih =>
    by_cases hp : p.1 = job_id
    · simp [jobsLookup, hp]
    · simp [jobsLookup, hp, ih]

theorem lookupJob_update (job_id : Nat) (st : String) (em : Option String) (s : SysState) :
    lookupJob (update_job_status job_id st em s) job_id =
      (lookupJob s job_id).map (applyStatusUpdate st em) := by
  unfold lookupJob update_job_status
  exact jobsLookup_map_update s.jobs job_id _

theorem string_append_ne_empty {a b : String} (ha : a ≠ "") : a ++ b ≠ "" := by
  intro hcon
  have hd : (a ++ b).data = ([] : List Char) := congrArg String.data hcon
  rw [String.data_append] at hd
  rcases List.append_eq_nil.mp hd with ⟨h1, _⟩
  exact ha (by cases a with | mk d => cases h1; rfl)

/-! ## Claim theorems: JobOrchestrator pipeline -/

/-- C1: on a success-path pipeline run started from a running job, every state
of the run in which a reader can observe `completed` already contains a script
record and an extracted-data record for that job (both are committed before the
terminal status). -/
theorem pipeline_completed_implies_artifacts
    (job_id : Nat) (script_result : AIResult) (extraction_result : ExtractionResult)
    (s0 : SysState) (j0 : JobRec)
    (hj : lookupJob s0 job_id = some j0) (hrun : j0.status = "running")
    (hs : script_result.status = "success") (he : extraction_result.status = "success") :
    ∀ t ∈ execute_scraping_job_trace job_id script_result extraction_result s0,
      ∀ j, lookupJob t job_id = some j → j.status = "completed" →
        (∃ sc ∈ t.scripts, sc.job_id = job_id) ∧ (∃ d ∈ t.results, d.job_id = job_id) := by
  have hj' : jobsLookup s0.jobs job_id = some j0 := hj
  have hctr : ∀ t' : SysState, t'.jobs = s0.jobs → ∀ j, lookupJob t' job_id = some j →
      j.status = "completed" → False := by
    intro t' hjobs j hl hcomp
    unfold lookupJob at hl
    rw [hjobs, hj'] at hl
    injection hl with hl
    rw [← hl, hrun] at hcomp
    exact absurd hcomp (by decide)
  intro t ht j hjt hcomp
  unfold execute_scraping_job_trace at ht
  rw [if_neg (by simp [hs]), if_neg (by simp [he])] at ht
  simp only [List.mem_cons, List.not_mem_nil, or_false] at ht
  rcases ht with rfl | rfl | rfl | rfl | rfl | rfl | rfl | rfl | rfl | rfl
  · exact absurd hcomp (fun hc => hctr _ rfl j hjt hc)
  · exact absurd hcomp (fun hc => hctr _ rfl j hjt hc)
  · exact absurd hcomp (fun hc => hctr _ rfl j hjt hc)
  · exact absurd hcomp (fun hc => hctr _ rfl j hjt hc)
  · exact absurd hcomp (fun hc => hctr _ rfl j hjt hc)
  · exact absurd hcomp (fun hc => hctr _ rfl j hjt hc)
  · exact absurd hcomp (fun hc => hctr _ rfl j hjt hc)
  · exact absurd hcomp (fun hc => hctr _ rfl j hjt hc)
  · refine ⟨⟨{ job_id := job_id, script_content := script_result.script,
               script_type := "playwright" }, ?_, rfl⟩,
      ⟨{ job_id := job_id, data := extraction_result.data,
         data_count := extraction_result.data_count }, ?_, rfl⟩⟩ <;>
      simp [update_job_status, log_job_progress]
  · refine ⟨⟨{ job_id := job_id, script_content := script_result.script,
               script_type := "playwright" }, ?_, rfl⟩,
      ⟨{ job_id := job_id, data := extraction_result.data,
         data_count := extraction_result.data_count }, ?_, rfl⟩⟩ <;>
      simp [update_job_status, log_job_progress]

/-- C2: an exception anywhere in the pipeline leaves the job `failed` with the
exception text as its error message; artifacts saved before the exception (the
generated script when extraction fails) are retained, nothing is rolled back,
and the registry entry is removed in every terminal case, success included. -/
theorem pipeline_failure_semantics
    (job_id : Nat) (script_result : AIResult) (extraction_result : ExtractionResult)
    (s0 : SysState) (j0 : JobRec) (hj : lookupJob s0 job_id = some j0) :
    (script_result.status ≠ "success" →
      lookupJob (execute_scraping_job job_id script_result extraction_result s0) job_id =
        some { j0 with
               status := "failed",
               error_message := some ("Script generation failed: " ++
                 script_result.error.getD "Unknown error"),
               completed_at := true } ∧
      (execute_scraping_job job_id script_result extraction_result s0).scripts = s0.scripts ∧
      (execute_scraping_job job_id script_result extraction_result s0).results = s0.results) ∧
    (script_result.status = "success" → extraction_result.status ≠ "success" →
      lookupJob (execute_scraping_job job_id script_result extraction_result s0) job_id =
        some { j0 with
               status := "failed",
               error_message := some ("Extraction failed: " ++
                 extraction_result.error.getD "Unknown error"),
               completed_at := true } ∧
      (execute_scraping_job job_id script_result extraction_result s0).scripts =
        s0.scripts ++ [{ job_id := job_id, script_content := script_result.script,
                         script_type := "playwright" }] ∧
      (execute_scraping_job job_id script_result extraction_result s0).results = s0.results) ∧
    job_id ∉ (execute_scraping_job job_id script_result extraction_result s0).active_jobs := by
  have hj' : jobsLookup s0.jobs job_id = some j0 := hj
  have hne1 : ("Script generation failed: " ++ script_result.error.getD "Unknown error") ≠ "" :=
    string_append_ne_empty (by decide)
  have hne2 : ("Extraction failed: " ++ extraction_result.error.getD "Unknown error") ≠ "" :=
    string_append_ne_empty (by decide)
  refine ⟨?_, ?_, ?_⟩
  · intro hsf
    unfold execute_scraping_job execute_scraping_job_trace
    rw [if_pos hsf]
    refine ⟨?_, rfl, rfl⟩
    show jobsLookup (s0.jobs.map (fun p => if p.1 = job_id then
        (p.1, applyStatusUpdate "failed"
          (some ("Script generation failed: " ++ script_result.error.getD "Unknown error")) p.2)
      else p)) job_id = _
    rw [jobsLookup_map_update, hj']
    simp [applyStatusUpdate, hne1]
  · intro hss hef
    unfold execute_scraping_job execute_scraping_job_trace
    rw [if_neg (by simp [hss]), if_pos hef]
    refine ⟨?_, rfl, rfl⟩
    show jobsLookup (s0.jobs.map (fun p => if p.1 = job_id then
        (p.1, applyStatusUpdate "failed"
          (some ("Extraction failed: " ++ extraction_result.error.getD "Unknown error")) p.2)
      else p)) job_id = _
    rw [jobsLookup_map_update, hj']
    simp [applyStatusUpdate, hne2]
  · by_cases h1 : script_result.status = "success"
    · by_cases h2 : extraction_result.status = "success"
      · unfold execute_scraping_job execute_scraping_job_trace
        rw [if_neg (by simp [h1]), if_neg (by simp [h2])]
        simp [List.getLastD_cons, List.getLastD_nil, List.mem_filter]
      · unfold execute_scraping_job execute_scraping_job_trace
        rw [if_neg (by simp [h1]), if_pos h2]
        simp [List.getLastD_cons, List.getLastD_nil, List.mem_filter]
    · unfold execute_scraping_job execute_scraping_job_trace
      rw [if_pos h1]
      simp [List.getLastD_cons, List.getLastD_nil, List.mem_filter]

/-- C3: `StartJob` fails with `NotFoundError` on an unknown job and with
`StateConflictError` on a non-pending job, in both cases leaving the state (and
so the registry and the job's status) untouched; on a pending job it returns
`started` at once with the status set to `running`, a registry entry created,
and no pipeline work done (scripts and results untouched by the call). -/
theorem start_job_semantics (s : SysState) (job_id : Nat) :
    (lookupJob s job_id = none →
      start_scraping_job job_id s = (s, Except.error StartError.notFound)) ∧
    (∀ j, lookupJob s job_id = some j → j.status ≠ "pending" →
      start_scraping_job job_id s = (s, Except.error StartError.stateConflict)) ∧
    (∀ j, lookupJob s job_id = some j → j.status = "pending" →
      (start_scraping_job job_id s).2 = Except.ok "started" ∧
      lookupJob (start_scraping_job job_id s).1 job_id = some { j with status := "running" } ∧
      job_id ∈ (start_scraping_job job_id s).1.active_jobs ∧
      (start_scraping_job job_id s).1.scripts = s.scripts ∧
      (start_scraping_job job_id s).1.results = s.results) := by
  refine ⟨?_, ?_, ?_⟩
  · intro hnone
    simp only [start_scraping_job, hnone]
  · intro j hjl hnp
    simp only [start_scraping_job, hjl]
    rw [if_neg hnp]
  · intro j hjl hp
    simp only [start_scraping_job, hjl]
    rw [if_pos hp]
    refine ⟨rfl, ?_, ?_, rfl, rfl⟩
    · show lookupJob (update_job_status job_id "running" none s) job_id =
        some { j with status := "running" }
      rw [lookupJob_update, hjl]
      simp [applyStatusUpdate]
    · by_cases hmem : job_id ∈ (update_job_status job_id "running" none s).active_jobs
      · simp [hmem]
      · simp [hmem]

theorem mem_broadcast_self {h : Hub} {ds : List (String × Msg)} {m : Msg} {c : String}
    (hc : c ∈ h.active_connections) : (c, m) ∈ broadcast_to_all h ds m := by
  unfold broadcast_to_all
  exact List.mem_append_right _ (List.mem_map.mpr ⟨c, hc, rfl⟩)

theorem mem_broadcast_mono {h : Hub} {ds : List (String × Msg)} {m : Msg} {x : String × Msg}
    (hx : x ∈ ds) : x ∈ broadcast_to_all h ds m :=
  List.mem_append_left _ hx

/-- C10: on a success-path run, every stage-progress event of the pipeline and
the terminal status-update event are delivered through `broadcast_to_all` to
every currently live connection — no per-job subscription filtering is applied
(no subscription hypothesis appears below), and the run leaves the hub
unchanged. -/
theorem pipeline_events_broadcast_to_all
    (job_id : Nat) (script_result : AIResult) (extraction_result : ExtractionResult)
    (s0 : SysState)
    (hs : script_result.status = "success") (he : extraction_result.status = "success") :
    (execute_scraping_job job_id script_result extraction_result s0).hub = s0.hub ∧
    ∀ c ∈ s0.hub.active_connections,
      (∀ stage ∈ (["started", "generating_script", "script_ready", "extracting",
          "data_extracted", "completed"] : List String),
        ∃ msg, (c, Msg.job_progress job_id stage msg) ∈
          (execute_scraping_job job_id script_result extraction_result s0).deliveries) ∧
      (c, Msg.job_status_update job_id "completed" none) ∈
        (execute_scraping_job job_id script_result extraction_result s0).deliveries := by
  unfold execute_scraping_job execute_scraping_job_trace
  rw [if_neg (by simp [hs]), if_neg (by simp [he])]
  refine ⟨rfl, ?_⟩
  intro c hc
  constructor
  · intro stage hstage
    simp only [List.mem_cons, List.not_mem_nil, or_false] at hstage
    rcases hstage with rfl | rfl | rfl | rfl | rfl | rfl
    · refine ⟨"Initializing scraping job", ?_⟩
      simp only [update_job_status, log_job_progress]
      repeat first
      | exact mem_broadcast_self hc
      | apply mem_broadcast_mono
    · refine ⟨"AI is generating extraction script", ?_⟩
      simp only [update_job_status, log_job_progress]
      repeat first
      | exact mem_broadcast_self hc
      | apply mem_broadcast_mono
    · exact ⟨_, by
        simp only [update_job_status, log_job_progress]
        repeat first
        | exact mem_broadcast_self hc
        | apply mem_broadcast_mono⟩
    · refine ⟨"Executing script and extracting data", ?_⟩
      simp only [update_job_status, log_job_progress]
      repeat first
      | exact mem_broadcast_self hc
      | apply mem_broadcast_mono
    · exact ⟨_, by
        simp only [update_job_status, log_job_progress]
        repeat first
        | exact mem_broadcast_self hc
        | apply mem_broadcast_mono⟩
    · exact ⟨_, by
        simp only [update_job_status, log_job_progress]
        repeat first
        | exact mem_broadcast_self hc
        | apply mem_broadcast_mono⟩
  · simp only [update_job_status, log_job_progress]
    repeat first
    | exact mem_broadcast_self hc
    | apply mem_broadcast_mono

/-! ## Helper lemmas: NotificationHub invariant -/

theorem subsInsert_inv (job_id : Nat) (client_id : String) :
    ∀ l : List (Nat × List String), (∀ p ∈ l, p.2 ≠ [] ∧ p.2.Nodup) →
      ∀ p ∈ subsInsert job_id client_id l, p.2 ≠ [] ∧ p.2.Nodup := by
  intro l
  induction l with
  | nil =>
    intro _ p hp
    simp only [subsInsert, List.mem_singleton] at hp
    subst hp
    exact ⟨by simp, List.nodup_singleton _⟩
  | cons q rest ih =>
    intro hl p hp
    simp only [subsInsert] at hp
    split_ifs at hp with h1 h2
    · exact hl p hp
    · rcases List.mem_cons.mp hp with rfl | hp
      · refine ⟨by simp, ?_⟩
        have hq := hl q (by simp)
        exact List.Nodup.append hq.2 (List.nodup_singleton _) (by simpa using h2)
      · exact hl p (List.mem_cons_of_mem _ hp)
    · rcases List.mem_cons.mp hp with rfl | hp
      · exact hl _ (List.mem_cons_self _ _)
      · exact ih (fun r hr => hl r (List.mem_cons_of_mem _ hr)) p hp

theorem subsRemove_inv (job_id : Nat) (client_id : String) :
    ∀ l : List (Nat × List String), (∀ p ∈ l, p.2 ≠ [] ∧ p.2.Nodup) →
      ∀ p ∈ subsRemove job_id client_id l, p.2 ≠ [] ∧ p.2.Nodup := by
  intro l
  induction l with
  | nil => intro _ p hp; simp [subsRemove] at hp
  | cons q rest ih =>
    intro hl p hp
    simp only [subsRemove] at hp
    split_ifs at hp with h1 h2 h3
    · exact hl p (List.mem_cons_of_mem _ hp)
    · rcases List.mem_cons.mp hp with rfl | hp
      · refine ⟨by simpa [List.isEmpty_iff] using h3, ?_⟩
        exact List.Nodup.erase _ (hl q (by simp)).2
      · exact hl p (List.mem_cons_of_mem _ hp)
    · exact hl p hp
    · rcases List.mem_cons.mp hp with rfl | hp
      · exact hl _ (List.mem_cons_self _ _)
      · exact ih (fun r hr => hl r (List.mem_cons_of_mem _ hr)) p hp

theorem disconnect_subscribers_inv (client_id : String) (l : List (Nat × List String))
    (hl : ∀ p ∈ l, p.2 ≠ [] ∧ p.2.Nodup) :
    ∀ p ∈ l.filterMap (fun p =>
      if client_id ∈ p.2 then
        (if (p.2.erase client_id).isEmpty then none else some (p.1, p.2.erase client_id))
      else some p), p.2 ≠ [] ∧ p.2.Nodup := by
  intro p hp
  rcases List.mem_filterMap.mp hp with ⟨q, hq, hfq⟩
  by_cases h1 : client_id ∈ q.2
  · rw [if_pos h1] at hfq
    by_cases h2 : (q.2.erase client_id).isEmpty = true
    · rw [if_pos h2] at hfq
      exact absurd hfq (by simp)
    · rw [if_neg h2] at hfq
      injection hfq with hfq
      subst hfq
      exact ⟨by simpa [List.isEmpty_iff] using h2, List.Nodup.erase _ (hl q hq).2⟩
  · rw [if_neg h1] at hfq
    injection hfq with hfq
    subst hfq
    exact hl q hq

theorem hubReachable_inv {h : Hub} (hr : HubReachable h) : HubInv h := by
  induction hr with
  | init => exact ⟨List.nodup_nil, by simp⟩
  | connect h c _ ih =>
    refine ⟨?_, ih.2⟩
    show (if c ∈ h.active_connections then h.active_connections
      else h.active_connections ++ [c]).Nodup
    split_ifs with hc
    · exact ih.1
    · exact List.Nodup.append ih.1 (List.nodup_singleton _) (by simpa using hc)
  | subscribe h j c _ ih => exact ⟨ih.1, subsInsert_inv j c _ ih.2⟩
  | unsubscribe h j c _ ih => exact ⟨ih.1, subsRemove_inv j c _ ih.2⟩
  | disconnect h c _ ih =>
    exact ⟨List.Nodup.erase _ ih.1, disconnect_subscribers_inv c _ ih.2⟩

/-- C9: in every hub state reachable by connect/subscribe/unsubscribe (and
disconnect) operations, after `Disconnect(c)` the connection `c` is in no job's
subscriber set and not among the live connections, and no subscriber set that
the removal emptied survives (every remaining set is non-empty). -/
theorem hub_disconnect_no_leak (h : Hub) (c : String) (hr : HubReachable h) :
    c ∉ (h.disconnect c).active_connections ∧
    ∀ p ∈ (h.disconnect c).job_subscribers, c ∉ p.2 ∧ p.2 ≠ [] := by
  have hinv := hubReachable_inv hr
  constructor
  · show c ∉ h.active_connections.erase c
    intro hmem
    exact absurd ((List.Nodup.mem_erase_iff hinv.1).mp hmem).1 (by simp)
  · intro p hp
    show c ∉ p.2 ∧ p.2 ≠ []
    have hp' : p ∈ h.job_subscribers.filterMap (fun p =>
      if c ∈ p.2 then
        (if (p.2.erase c).isEmpty then none else some (p.1, p.2.erase c))
      else some p) := hp
    rcases List.mem_filterMap.mp hp' with ⟨q, hq, hfq⟩
    have hq2 := hinv.2 q hq
    by_cases h1 : c ∈ q.2
    · rw [if_pos h1] at hfq
      by_cases h2 : (q.2.erase c).isEmpty = true
      · rw [if_pos h2] at hfq
        exact absurd hfq (by simp)
      · rw [if_neg h2] at hfq
        injection hfq with hfq
        subst hfq
        exact ⟨hq2.2.not_mem_erase, by simpa [List.isEmpty_iff] using h2⟩
    · rw [if_neg h1] at hfq
      injection hfq with hfq
      subst hfq
      exact ⟨h1, hq2.1⟩

/-! ## Claim theorems: CreateJob validation -/

/-- C8 (amended): `CreateJob` fails with a ValidationError — persisting nothing
— exactly when the payload is type-malformed (url not a string or schema not a
mapping); a well-typed call, including an empty url string or an empty schema
object, persists a new job with status `pending` and has no side effects beyond
persistence (registry, hub, scripts, results and deliveries untouched). -/
theorem create_job_validation (payload : Json) (user_id : String) (new_id : Nat) (s : SysState) :
    (∀ e, parseScrapingJobCreate payload = Except.error e →
      create_scraping_job payload user_id new_id s = Except.error e) ∧
    (∀ url schema, parseScrapingJobCreate payload = Except.ok (url, schema) →
      create_scraping_job payload user_id new_id s =
        Except.ok ({ s with jobs := s.jobs ++ [(new_id,
          { url := url, schema_definition := schema, status := "pending",
            error_message := none, completed_at := false, user_id := user_id })] }, new_id)) := by
  constructor
  · intro e hpar
    unfold create_scraping_job
    rw [hpar]
  · intro url schema hpar
    unfold create_scraping_job
    rw [hpar]

/-- C8 counterexample: an empty url together with an empty schema object passes
validation and the job is persisted with status `pending` — the operation does
not fail with a ValidationError as claimed. -/
theorem create_job_empty_accepted :
    create_scraping_job (Json.obj [("url", Json.str ""), ("schema_definition", Json.obj [])])
        "anonymous" 1 emptyState =
      Except.ok ({ emptyState with jobs := [(1,
        { url := "", schema_definition := [], status := "pending",
          error_message := none, completed_at := false, user_id := "anonymous" })] }, 1) := by
  rfl

/-! ## Witnesses -/

/-- Witness for C1: the success-path run on a concrete world leaves both a
script record and a result record for the job. -/
theorem pipeline_completed_implies_artifacts_witness :
    (∃ sc ∈ (execute_scraping_job 1 wScriptOk wExtrOk wState).scripts, sc.job_id = 1) ∧
    (∃ d ∈ (execute_scraping_job 1 wScriptOk wExtrOk wState).results, d.job_id = 1) := by
  have h := pipeline_completed_implies_artifacts 1 wScriptOk wExtrOk wState wJob rfl rfl rfl rfl
  refine h (execute_scraping_job 1 wScriptOk wExtrOk wState) ?_
    { wJob with status := "completed", completed_at := true } rfl rfl
  show (execute_scraping_job_trace 1 wScriptOk wExtrOk wState).getLastD wState ∈
    execute_scraping_job_trace 1 wScriptOk wExtrOk wState
  repeat first
  | exact List.mem_cons_self _ _
  | apply List.mem_cons_of_mem

/-- Witness for C2: a concrete run whose extraction fails retains the saved
script, marks the job failed with the error text, and clears the registry. -/
theorem pipeline_failure_semantics_witness :
    lookupJob (execute_scraping_job 1 wScriptOk wExtrFail wState) 1 =
      some { wJob with
             status := "failed", error_message := some "Extraction failed: Timeout",
             completed_at := true } ∧
    (execute_scraping_job 1 wScriptOk wExtrFail wState).scripts =
      [{ job_id := 1, script_content := wScriptOk.script, script_type := "playwright" }] ∧
    1 ∉ (execute_scraping_job 1 wScriptOk wExtrFail wState).active_jobs := by
  have h := pipeline_failure_semantics 1 wScriptOk wExtrFail wState wJob rfl
  obtain ⟨h1, h2, _⟩ := h.2.1 rfl (by decide)
  exact ⟨h1, h2, h.2.2⟩

/-- Witness for C3: starting a concrete pending job returns `started`, sets the
status to `running`, and registers the job. -/
theorem start_job_semantics_witness :
    (start_scraping_job 1 wPendingState).2 = Except.ok "started" ∧
    lookupJob (start_scraping_job 1 wPendingState).1 1 = some wJob ∧
    1 ∈ (start_scraping_job 1 wPendingState).1.active_jobs := by
  have h := (start_job_semantics wPendingState 1).2.2 { wJob with status := "pending" } rfl rfl
  exact ⟨h.1, h.2.1, h.2.2.1⟩

/-- Witness for C4: the strategy equivalence at a concrete plain page. -/
theorem analyzer_strategy_decision_witness :
    analyze_extraction_requirements "http://example.org/items" wHtml wSchema none =
      Except.ok wAnalysis ∧
    (wAnalysis.method = "playwright" ↔
      (0.6 < wAnalysis.complexity_score ∨
        requires_user_interaction wHtml wSchema
          (lowerStr (urlNetloc "http://example.org/items")) = true)) := by
  have h := analyzer_strategy_decision "http://example.org/items" wHtml wSchema none wAnalysis
    (by with_unfolding_all rfl)
  exact ⟨h.1, h.2.1⟩

/-- Witness for C5: the concrete plain page's score lies in the unit interval. -/
theorem analyzer_score_clamped_mean_witness :
    0 ≤ wAnalysis.complexity_score ∧ wAnalysis.complexity_score ≤ 1 :=
  (analyzer_score_clamped_mean "http://example.org/items" wHtml wSchema none wAnalysis
    (by with_unfolding_all rfl)).1

/-- Witness for C6 (amended): the concrete plain page's load-time estimate is
the deterministic function of its score. -/
theorem analyzer_load_time_piecewise_witness :
    wAnalysis.estimated_load_time = estimatedLoadTimeOf wAnalysis.complexity_score :=
  (analyzer_load_time_piecewise "http://example.org/items" wHtml wSchema none wAnalysis
    (by with_unfolding_all rfl)).1

/-- Witness for C8 (amended): a payload missing both fields is rejected with a
ValidationError. -/
theorem create_job_validation_witness :
    create_scraping_job (Json.obj []) "anonymous" 1 emptyState =
      Except.error "ValidationError" :=
  (create_job_validation (Json.obj []) "anonymous" 1 emptyState).1 "ValidationError" rfl

/-- Witness for C9: disconnecting the only subscriber of a concrete reachable
hub leaves it in no subscriber set and outside the connection registry. -/
theorem hub_disconnect_no_leak_witness :
    "alice" ∉ (wHub.disconnect "alice").active_connections ∧
    ∀ p ∈ (wHub.disconnect "alice").job_subscribers, "alice" ∉ p.2 ∧ p.2 ≠ [] :=
  hub_disconnect_no_leak wHub "alice"
    (HubReachable.subscribe _ 1 "alice" (HubReachable.connect _ "alice" HubReachable.init))

/-- Witness for C10: on a concrete run, the connection subscribed only to a
different job still receives the terminal status-update event. -/
theorem pipeline_events_broadcast_to_all_witness :
    ("bob", Msg.job_status_update 1 "completed" none) ∈
      (execute_scraping_job 1 wScriptOk wExtrOk wState).deliveries := by
  have h := pipeline_events_broadcast_to_all 1 wScriptOk wExtrOk wState rfl rfl
  exact (h.2 "bob" (by decide)).2

end LlmScraper
